import Mathlib

/-
Verification of the PDF-analysis chat application (streamlit_app.py and
tools/ai_pdf_tool.py) against its natural-language specification.

The embedding is shallow: the effectful Python code is modelled as pure
Lean functions over an explicit environment.  Exceptions are modelled with
`Except PyExn`; Python truthiness of the API key (None or "") is modelled
explicitly; a PDF is modelled as the list of its per-page extracted texts,
which is exactly the information `page.get_text()` supplies to
`AIPDFTool._extract_pdf_text`.
-/

/-- Python exception classes distinguished by the handlers in
`AIPDFTool.forward` (lines 93-98): `FileNotFoundError`, `ValueError`,
and every other `Exception`. -/
inductive PyExn where
  | fileNotFound (msg : String)
  | valueError (msg : String)
  | other (msg : String)
deriving DecidableEq, Repr

/-- Outcome of evaluating `st.secrets["openrouter"]["api_key"]`
(ai_pdf_tool.py lines 66-70): a value, a `KeyError`/`AttributeError`
(the inner handler falls back to the environment variable), or any other
exception, which propagates out of the inner `try`. -/
inductive SecretsOutcome where
  | value (key : String)
  | keyError
  | raises (e : PyExn)
deriving DecidableEq, Repr

/-- One element of the `choices` list of the JSON body of a 2xx response:
either `choice["message"]["content"]` is present (a string), or some key
is missing and indexing raises `KeyError` with the named key. -/
inductive ApiChoice where
  | wellFormed (content : String)
  | malformed (missingKey : String)
deriving DecidableEq, Repr

/-- Outcome of the HTTP POST in `AIPDFTool._query_openrouter_ai`
(lines 185-189): a `requests.exceptions.RequestException` (network
failure, timeout, or non-2xx status raised by `raise_for_status`), or a
parsed JSON body, in which `choices` is absent (`none`) or a list. -/
inductive ApiResponse where
  | requestFailure (msg : String)
  | parsed (choices : Option (List ApiChoice))
deriving DecidableEq, Repr

/-- The external state `AIPDFTool.forward` interacts with: the secrets
store, the `OPENROUTER_API_KEY` environment variable, the filesystem
(`os.path.exists`), the PDF reader (`fitz.open` plus `page.get_text()`
per page, with `Except.error` for an exception raised while opening or
reading), and the remote chat-completion endpoint, as a function of the
prompt that is posted. -/
structure ToolEnv where
  secrets : SecretsOutcome
  envKey : Option String
  fileExists : String → Bool
  pdfPages : String → Except String (List String)
  apiResponse : String → ApiResponse

/-- The API-key lookup of `forward` lines 66-70: the inner `try` returns
the secrets value, falls back to `os.getenv("OPENROUTER_API_KEY")` on
`KeyError`/`AttributeError`, and lets any other exception propagate. -/
def getApiKey (env : ToolEnv) : Except PyExn (Option String) :=
  match env.secrets with
  | SecretsOutcome.value k => Except.ok (some k)
  | SecretsOutcome.keyError => Except.ok env.envKey
  | SecretsOutcome.raises e => Except.error e

/-- Python truthiness of the `api_key` variable at line 72
(`if not api_key`): falsy when it is `None` or the empty string. -/
def keyIsFalsy : Option String → Bool
  | none => true
  | some k => k = ""

/-- Python truthiness of `pdf_text.strip()` at line 82: `not s.strip()`
holds exactly when every character of `s` is whitespace (stripping both
ends leaves the empty string). -/
def stripIsEmpty (s : String) : Bool :=
  s.data.all Char.isWhitespace

/-- The `for page_num in range(len(doc))` loop of
`AIPDFTool._extract_pdf_text` (lines 114-117): starting from
`text_content` = `acc`, each page appends `"\n--- Page {page_num+1} ---\n"`
and then the page text. -/
def extract_text_loop : List String → Nat → String → String
  | [], _, acc => acc
  | p :: rest, n, acc =>
      extract_text_loop rest (n + 1)
        (acc ++ ("\n--- Page " ++ toString (n + 1) ++ " ---\n") ++ p)

/-- The pure content of `AIPDFTool._extract_pdf_text` on a successfully
opened document, as a function of the per-page texts. -/
def extract_text (pages : List String) : String :=
  extract_text_loop pages 0 ""

/-- `AIPDFTool._extract_pdf_text` (lines 100-123): on a reader exception
the function re-raises `Exception("Failed to extract text from PDF: ...")`. -/
def extract_pdf_text (env : ToolEnv) (pdf_path : String) : Except PyExn String :=
  match env.pdfPages pdf_path with
  | Except.ok pages => Except.ok (extract_text pages)
  | Except.error m => Except.error (PyExn.other ("Failed to extract text from PDF: " ++ m))

/-- The fixed instructional preamble of `AIPDFTool._create_ai_prompt`
(lines 137-148). -/
def preprompt : String := "You are an expert document analyst with exceptional reading comprehension skills. Your task is to carefully analyze the provided PDF document content and answer questions about it with precision and clarity.

INSTRUCTIONS:
- Read and understand the entire document content thoroughly
- Provide accurate, evidence-based answers using only information from the document
- If information is not available in the document, clearly state this
- Quote relevant sections when appropriate to support your answers
- Maintain objectivity and avoid making assumptions beyond what\x27s written
- Structure your response clearly and concisely

DOCUMENT CONTENT:
"

/-- `AIPDFTool._create_ai_prompt` (lines 125-152): preamble, then the
extracted text, then the user-question trailer. -/
def create_ai_prompt (pdf_text user_query : String) : String :=
  let user_prompt := "\n\nUSER QUESTION: " ++ user_query ++
    "\n\nPlease provide a comprehensive answer based on the document content above."
  preprompt ++ pdf_text ++ user_prompt

/-- `AIPDFTool._query_openrouter_ai` (lines 154-199) as a function of the
response outcome: a `RequestException` is re-raised as
`Exception("API request failed: ...")`; with a parsed body, if `choices`
is present and non-empty the first choice content is returned (a
`KeyError` while indexing it is re-raised as
`Exception("Unexpected API response format: ...")`), otherwise the
no-response error string is returned. -/
def query_openrouter_ai (resp : ApiResponse) : Except PyExn String :=
  match resp with
  | ApiResponse.requestFailure m =>
      Except.error (PyExn.other ("API request failed: " ++ m))
  | ApiResponse.parsed none => Except.ok "Error: No response received from AI service."
  | ApiResponse.parsed (some []) => Except.ok "Error: No response received from AI service."
  | ApiResponse.parsed (some (c :: _)) =>
      match c with
      | ApiChoice.wellFormed content => Except.ok content
      | ApiChoice.malformed k =>
          Except.error (PyExn.other ("Unexpected API response format: " ++ k))

/-- The body of the outer `try` of `AIPDFTool.forward` (lines 64-91):
API-key lookup and truthiness check, `os.path.exists` check, extraction,
empty-text check (`if not pdf_text.strip()`), prompt construction, and
the remote query. -/
def forwardBody (env : ToolEnv) (pdf_path query : String) : Except PyExn String :=
  match getApiKey env with
  | Except.error e => Except.error e
  | Except.ok api_key =>
    if keyIsFalsy api_key then
      Except.ok "Error: OpenRouter API key is required. Configure it in Streamlit secrets or set OPENROUTER_API_KEY environment variable."
    else if !(env.fileExists pdf_path) then
      Except.ok ("Error: PDF file not found: " ++ pdf_path)
    else
      match extract_pdf_text env pdf_path with
      | Except.error e => Except.error e
      | Except.ok pdf_text =>
        if stripIsEmpty pdf_text then
          Except.ok "Error: No text could be extracted from the PDF file."
        else
          query_openrouter_ai (env.apiResponse (create_ai_prompt pdf_text query))

/-- The exception handlers of `AIPDFTool.forward` (lines 93-98):
`FileNotFoundError` and `ValueError` become `"Error: ..."`, any other
exception becomes `"Error processing request: ..."`. -/
def forwardHandlers : PyExn → String
  | PyExn.fileNotFound m => "Error: " ++ m
  | PyExn.valueError m => "Error: " ++ m
  | PyExn.other m => "Error processing request: " ++ m

/-- `AIPDFTool.forward` as the caught computation: the body wrapped in
the outer `try`/`except` chain.  `Except.ok` means a string is returned
to the caller; `Except.error` would mean an uncaught exception. -/
def forwardCaught (env : ToolEnv) (pdf_path query : String) : Except PyExn String :=
  Except.tryCatch (forwardBody env pdf_path query)
    (fun e => Except.ok (forwardHandlers e))

/-- `AIPDFTool.forward` (lines 51-98): the string the tool returns. -/
def forward (env : ToolEnv) (pdf_path query : String) : String :=
  match forwardBody env pdf_path query with
  | Except.ok s => s
  | Except.error e => forwardHandlers e

/-
Embedding of streamlit_app.py: file uploads, temp-directory cleanup, and
the chat history.
-/

/-- Metadata recorded by `handle_multiple_pdf_uploads` for one accepted
file (streamlit_app.py lines 118-122). -/
structure ProcessedFile where
  path : String
  name : String
  size : Nat
deriving DecidableEq, Repr

/-- A file handed to `handle_multiple_pdf_uploads` by the chat input:
its name, declared MIME type, content bytes, and the `size` attribute
(`none` models an object without the attribute, for the
`hasattr(uploaded_file, 'size')` guard at line 121). -/
structure UploadedFile where
  name : String
  type : String
  data : List UInt8
  size : Option Nat
deriving DecidableEq, Repr

/-- The destination path `os.path.join(temp_dir, f"uploaded_{name}")`
(line 114); the joined component starts with `uploaded_`, never with a
separator, so the join is plain concatenation with `/`. -/
def uploadedFilePath (temp_dir name : String) : String :=
  temp_dir ++ "/" ++ ("uploaded_" ++ name)

/-- The `for uploaded_file in uploaded_files` loop of
`handle_multiple_pdf_uploads` (lines 111-124): a file whose type is
`application/pdf` is written to its destination (recorded in the second
component as an ordered list of write operations) and a metadata entry
is appended; any other file is skipped. -/
def handleUploadsLoop (temp_dir : String) :
    List UploadedFile → List ProcessedFile × List (String × List UInt8)
  | [] => ([], [])
  | f :: rest =>
      if f.type = "application/pdf" then
        let dest := uploadedFilePath temp_dir f.name
        let tailResult := handleUploadsLoop temp_dir rest
        ({ path := dest, name := f.name, size := f.size.getD 0 } :: tailResult.1,
         (dest, f.data) :: tailResult.2)
      else
        handleUploadsLoop temp_dir rest

/-- `handle_multiple_pdf_uploads` (lines 103-126): `none` models the
`uploaded_files is not None` guard; the result is the list of metadata
entries together with the ordered write operations performed. -/
def handle_multiple_pdf_uploads (temp_dir : String) :
    Option (List UploadedFile) → List ProcessedFile × List (String × List UInt8)
  | none => ([], [])
  | some files => handleUploadsLoop temp_dir files

/-- One entry of the scratch directory listing (`os.listdir`), with the
`os.path.isfile` classification. -/
structure DirEntry where
  name : String
  isFile : Bool
deriving DecidableEq, Repr

/-- The cleanup loop of `main` (streamlit_app.py lines 246-253): for
each listed entry, the `os.path.isfile` guard skips directories, and
`os.remove` is attempted on regular files inside `try: ... except
Exception: pass` — `removeFails e` models that attempt raising, which
the handler swallows, leaving the entry in place.  An entry therefore
survives exactly when it is not a regular file or its removal failed. -/
def cleanup_temp_dir (removeFails : DirEntry → Bool)
    (entries : List DirEntry) : List DirEntry :=
  entries.filter (fun e => !e.isFile || removeFails e)

/-- The first-run gate of `main` (line 242): the cleanup runs only when
`first_run` is not yet in the session state. -/
def main_first_run_cleanup (first_run_in_state : Bool)
    (removeFails : DirEntry → Bool) (entries : List DirEntry) : List DirEntry :=
  if first_run_in_state then entries else cleanup_temp_dir removeFails entries

/-- One message of `st.session_state.chat_history`.  Optional fields
default to the values of messages that omit the corresponding Python
dict keys (`has_pdfs`, `pdf_files`, `file_name`). -/
structure ChatMessage where
  role : String
  content : String
  hasPdfs : Bool := false
  pdfFiles : List ProcessedFile := []
  fileName : Option String := none
deriving DecidableEq, Repr

/-- The greeting message appended at history initialization (lines
307-310) and after clearing (lines 462-465); the two literals in the
source are identical. -/
def greetingMessage : ChatMessage :=
  { role := "assistant",
    content := "👋 Bienvenue ! Je suis là pour vous aider à analyser des PDF et générer des documents. Veuillez télécharger un fichier PDF ou poser une question." }

/-- History initialization (lines 305-310): an empty list, then the
greeting appended. -/
def initChatHistory : List ChatMessage :=
  ([] : List ChatMessage) ++ [greetingMessage]

/-- Appending the user message (lines 358-364): content falls back to a
file-count notice when the text is whitespace-only. -/
def appendUserMessage (h : List ChatMessage) (message_text : String)
    (processed : List ProcessedFile) : List ChatMessage :=
  h ++ [{ role := "user",
          content := if message_text.trim = "" then
              toString processed.length ++ " fichier(s) PDF téléchargé(s) pour analyse"
            else message_text,
          hasPdfs := decide (processed.length > 0),
          pdfFiles := processed }]

/-- Appending the agent response (lines 451-454). -/
def appendAssistantResponse (h : List ChatMessage) (response : String) :
    List ChatMessage :=
  h ++ [{ role := "assistant", content := response }]

/-- Appending the generated-file notice (lines 444-448). -/
def appendGeneratedFileMessage (h : List ChatMessage) (file : String) :
    List ChatMessage :=
  h ++ [{ role := "system",
          content := "Fichier généré disponible : " ++ file,
          fileName := some file }]

/-- The clear-history action (lines 461-465): the history is replaced by
an empty list and the greeting is appended. -/
def clearHistory (_h : List ChatMessage) : List ChatMessage :=
  ([] : List ChatMessage) ++ [greetingMessage]

/-- The invariant of claim C10: the history is non-empty and its first
message is the assistant greeting. -/
def historyInvariant (h : List ChatMessage) : Prop :=
  h ≠ [] ∧ h.head? = some greetingMessage

/-
Spec-side definitions, written from the specification text, for the
refinement statements of C5 and C6.
-/

/-- Modelled from the spec: the page-delimiter marker preceding the text
of page `n` (1-based). -/
def pageMarker (n : Nat) : String :=
  "\n--- Page " ++ toString n ++ " ---\n"

/-- Modelled from the spec: the per-page texts in page order, each
preceded by its page-delimiter marker, numbering from `n + 1`. -/
def pagesJoinedFrom : List String → Nat → String
  | [], _ => ""
  | p :: rest, n => pageMarker (n + 1) ++ p ++ pagesJoinedFrom rest (n + 1)

/-- Modelled from the spec: the full extracted text, pages numbered from 1. -/
def pagesJoined (pages : List String) : String :=
  pagesJoinedFrom pages 0

/-- Modelled from the spec: the user-question trailer that follows the
document text in the prompt. -/
def userPromptSuffix (user_query : String) : String :=
  "\n\nUSER QUESTION: " ++ user_query ++
    "\n\nPlease provide a comprehensive answer based on the document content above."

/-
Concrete environments used to evaluate the tool on closed inputs.
-/

/-- Environment with no API key anywhere (secrets lookup raises
`KeyError`, the environment variable is unset) and no file present. -/
def envNoKeyNoFile : ToolEnv :=
  { secrets := SecretsOutcome.keyError,
    envKey := none,
    fileExists := fun _ => false,
    pdfPages := fun _ => Except.error "cannot open",
    apiResponse := fun _ => ApiResponse.parsed none }

/-- Environment with a configured key and a missing file. -/
def envMissingFileWithKey : ToolEnv :=
  { secrets := SecretsOutcome.value "sk-test-key",
    envKey := none,
    fileExists := fun _ => false,
    pdfPages := fun _ => Except.error "cannot open",
    apiResponse := fun _ => ApiResponse.parsed none }

/-- Environment with a configured key and an existing one-page PDF whose
single page has no extractable text; the endpoint would answer. -/
def envBlankPage : ToolEnv :=
  { secrets := SecretsOutcome.value "sk-test-key",
    envKey := none,
    fileExists := fun _ => true,
    pdfPages := fun _ => Except.ok [""],
    apiResponse := fun _ => ApiResponse.parsed (some [ApiChoice.wellFormed "AI answer"]) }

/-- Environment with a configured key and an existing zero-page PDF. -/
def envZeroPages : ToolEnv :=
  { secrets := SecretsOutcome.value "sk-test-key",
    envKey := none,
    fileExists := fun _ => true,
    pdfPages := fun _ => Except.ok [],
    apiResponse := fun _ => ApiResponse.parsed none }

/-- Environment with a configured key, an existing one-page PDF with
text, and an endpoint that answers with one well-formed choice. -/
def envOnePage : ToolEnv :=
  { secrets := SecretsOutcome.value "sk-test-key",
    envKey := none,
    fileExists := fun _ => true,
    pdfPages := fun _ => Except.ok ["hello world"],
    apiResponse := fun _ => ApiResponse.parsed (some [ApiChoice.wellFormed "the answer"]) }

/-- Environment with a configured key, an existing one-page PDF with
text, and an endpoint whose request fails. -/
def envRequestFails : ToolEnv :=
  { secrets := SecretsOutcome.value "sk-test-key",
    envKey := none,
    fileExists := fun _ => true,
    pdfPages := fun _ => Except.ok ["hello world"],
    apiResponse := fun _ => ApiResponse.requestFailure "timeout" }

/-
Helper lemmas.
-/

/-- The extraction loop produces the accumulator followed by the
marker-delimited page texts, numbering from the starting index. -/
theorem extract_text_loop_eq (pages : List String) :
    ∀ (n : Nat) (acc : String),
      extract_text_loop pages n acc = acc ++ pagesJoinedFrom pages n := by
  induction pages with
  | nil =>
      intro n acc
      simp [extract_text_loop, pagesJoinedFrom]
  | cons p rest ih =>
      intro n acc
      simp [extract_text_loop, pagesJoinedFrom, ih, pageMarker, String.append_assoc]

/-- Extraction equals the marker-delimited concatenation of the pages in
page order. -/
theorem extract_text_eq_pagesJoined (pages : List String) :
    extract_text pages = pagesJoined pages := by
  simpa [extract_text, pagesJoined] using extract_text_loop_eq pages 0 ""

/-
Claim theorems.
-/

/-- Claim C1 (counterexample): with no API key configured anywhere and a
missing file, `forward` returns the missing-credentials error string,
not the file-not-found error the claim requires regardless of whether a
key is configured. -/
theorem forward_missing_file_needs_key_counterexample :
    forward envNoKeyNoFile "missing.pdf" "q"
        = "Error: OpenRouter API key is required. Configure it in Streamlit secrets or set OPENROUTER_API_KEY environment variable." ∧
    forward envNoKeyNoFile "missing.pdf" "q" ≠ "Error: PDF file not found: missing.pdf" := by
  exact ⟨rfl, by decide⟩

/-- Claim C1 (amended): whenever the API-key lookup yields a truthy key,
a path that does not exist makes `forward` return the documented
file-not-found error string, and no exception escapes. -/
theorem forward_missing_file_reports_not_found
    (env : ToolEnv) (pdf_path query : String) (k : Option String)
    (hget : getApiKey env = Except.ok k)
    (hkey : keyIsFalsy k = false)
    (hfile : env.fileExists pdf_path = false) :
    forward env pdf_path query = "Error: PDF file not found: " ++ pdf_path := by
  simp [forward, forwardBody, hget, hkey, hfile]

/-- Claim C1 (witness): the amended theorem evaluated in a concrete
environment with a key configured and the file absent. -/
theorem forward_missing_file_reports_not_found_witness :
    getApiKey envMissingFileWithKey = Except.ok (some "sk-test-key") ∧
    keyIsFalsy (some "sk-test-key") = false ∧
    envMissingFileWithKey.fileExists "missing.pdf" = false ∧
    forward envMissingFileWithKey "missing.pdf" "q" = "Error: PDF file not found: missing.pdf" :=
  ⟨rfl, rfl, rfl,
   forward_missing_file_reports_not_found envMissingFileWithKey "missing.pdf" "q"
     (some "sk-test-key") rfl rfl rfl⟩

/-- Claim C2 (counterexample): an existing one-page PDF whose page has no
extractable text still produces the page marker, so `forward` queries the
endpoint and returns its answer instead of the no-text error string. -/
theorem forward_blank_page_counterexample :
    forward envBlankPage "doc.pdf" "q" = "AI answer" ∧
    forward envBlankPage "doc.pdf" "q" ≠ "Error: No text could be extracted from the PDF file." := by
  exact ⟨rfl, by decide⟩

/-- Claim C2 (amended): for an existing PDF with zero pages — the case in
which the extracted concatenation strips to the empty string, since every
page contributes a non-whitespace marker — `forward` returns the
documented no-text error string and never queries the endpoint. -/
theorem forward_zero_pages_reports_no_text
    (env : ToolEnv) (pdf_path query : String) (k : Option String)
    (hget : getApiKey env = Except.ok k)
    (hkey : keyIsFalsy k = false)
    (hfile : env.fileExists pdf_path = true)
    (hpages : env.pdfPages pdf_path = Except.ok []) :
    forward env pdf_path query = "Error: No text could be extracted from the PDF file." := by
  simp [forward, forwardBody, extract_pdf_text, hget, hkey, hfile, hpages]
  rfl

/-- Claim C2 (witness): the amended theorem evaluated on a concrete
zero-page document. -/
theorem forward_zero_pages_reports_no_text_witness :
    getApiKey envZeroPages = Except.ok (some "sk-test-key") ∧
    keyIsFalsy (some "sk-test-key") = false ∧
    envZeroPages.fileExists "doc.pdf" = true ∧
    envZeroPages.pdfPages "doc.pdf" = Except.ok [] ∧
    forward envZeroPages "doc.pdf" "q" = "Error: No text could be extracted from the PDF file." :=
  ⟨rfl, rfl, rfl, rfl,
   forward_zero_pages_reports_no_text envZeroPages "doc.pdf" "q"
     (some "sk-test-key") rfl rfl rfl rfl⟩

/-- Claim C3: whenever the remote call succeeds with a non-empty
`choices` list whose first choice is well formed, `forward` returns that
first choice content verbatim. -/
theorem forward_returns_first_choice
    (env : ToolEnv) (pdf_path query : String) (k : Option String)
    (pages : List String) (c : String) (rest : List ApiChoice)
    (hget : getApiKey env = Except.ok k)
    (hkey : keyIsFalsy k = false)
    (hfile : env.fileExists pdf_path = true)
    (hpages : env.pdfPages pdf_path = Except.ok pages)
    (htext : stripIsEmpty (extract_text pages) = false)
    (hresp : env.apiResponse (create_ai_prompt (extract_text pages) query)
        = ApiResponse.parsed (some (ApiChoice.wellFormed c :: rest))) :
    forward env pdf_path query = c := by
  simp [forward, forwardBody, extract_pdf_text, hget, hkey, hfile, hpages, htext,
    hresp, query_openrouter_ai]

/-- Claim C3 (witness): the theorem evaluated in a concrete environment
with an existing one-page PDF and a single well-formed choice. -/
theorem forward_returns_first_choice_witness :
    getApiKey envOnePage = Except.ok (some "sk-test-key") ∧
    keyIsFalsy (some "sk-test-key") = false ∧
    envOnePage.fileExists "doc.pdf" = true ∧
    envOnePage.pdfPages "doc.pdf" = Except.ok ["hello world"] ∧
    stripIsEmpty (extract_text ["hello world"]) = false ∧
    envOnePage.apiResponse (create_ai_prompt (extract_text ["hello world"]) "What is stated?")
        = ApiResponse.parsed (some [ApiChoice.wellFormed "the answer"]) ∧
    forward envOnePage "doc.pdf" "What is stated?" = "the answer" :=
  ⟨rfl, rfl, rfl, rfl, by decide, rfl,
   forward_returns_first_choice envOnePage "doc.pdf" "What is stated?"
     (some "sk-test-key") ["hello world"] "the answer" [] rfl rfl rfl rfl (by decide) rfl⟩

/-- Claim C4: the caught computation always returns `Except.ok` — the
handler chain is exhaustive, so no exception ever reaches the caller —
and each failure mode ends in its human-readable error string: missing
credentials, extraction failure, network/API failure, and malformed API
response. -/
theorem forward_total_never_raises :
    (∀ (env : ToolEnv) (pdf_path query : String),
        forwardCaught env pdf_path query = Except.ok (forward env pdf_path query)) ∧
    (∀ (env : ToolEnv) (pdf_path query : String),
        env.secrets = SecretsOutcome.keyError → env.envKey = none →
        forward env pdf_path query
          = "Error: OpenRouter API key is required. Configure it in Streamlit secrets or set OPENROUTER_API_KEY environment variable.") ∧
    (∀ (env : ToolEnv) (pdf_path query : String) (k : Option String) (m : String),
        getApiKey env = Except.ok k → keyIsFalsy k = false →
        env.fileExists pdf_path = true → env.pdfPages pdf_path = Except.error m →
        forward env pdf_path query
          = "Error processing request: Failed to extract text from PDF: " ++ m) ∧
    (∀ (env : ToolEnv) (pdf_path query : String) (k : Option String)
        (pages : List String) (m : String),
        getApiKey env = Except.ok k → keyIsFalsy k = false →
        env.fileExists pdf_path = true → env.pdfPages pdf_path = Except.ok pages →
        stripIsEmpty (extract_text pages) = false →
        env.apiResponse (create_ai_prompt (extract_text pages) query)
          = ApiResponse.requestFailure m →
        forward env pdf_path query = "Error processing request: API request failed: " ++ m) ∧
    (∀ (env : ToolEnv) (pdf_path query : String) (k : Option String)
        (pages : List String) (key : String) (rest : List ApiChoice),
        getApiKey env = Except.ok k → keyIsFalsy k = false →
        env.fileExists pdf_path = true → env.pdfPages pdf_path = Except.ok pages →
        stripIsEmpty (extract_text pages) = false →
        env.apiResponse (create_ai_prompt (extract_text pages) query)
          = ApiResponse.parsed (some (ApiChoice.malformed key :: rest)) →
        forward env pdf_path query
          = "Error processing request: Unexpected API response format: " ++ key) := by
  refine ⟨?_, ?_, ?_, ?_, ?_⟩
  · intro env pdf_path query
    unfold forwardCaught forward
    cases forwardBody env pdf_path query <;> rfl
  · intro env pdf_path query hsec henv
    simp [forward, forwardBody, getApiKey, hsec, henv, keyIsFalsy]
  · intro env pdf_path query k m hget hkey hfile hpages
    simp [forward, forwardBody, extract_pdf_text, forwardHandlers, hget, hkey, hfile, hpages]
    rw [← String.append_assoc]
    rfl
  · intro env pdf_path query k pages m hget hkey hfile hpages htext hresp
    simp [forward, forwardBody, extract_pdf_text, forwardHandlers, query_openrouter_ai,
      hget, hkey, hfile, hpages, htext, hresp]
    rw [← String.append_assoc]
    rfl
  · intro env pdf_path query k pages key rest hget hkey hfile hpages htext hresp
    simp [forward, forwardBody, extract_pdf_text, forwardHandlers, query_openrouter_ai,
      hget, hkey, hfile, hpages, htext, hresp]
    rw [← String.append_assoc]
    rfl

/-- Claim C4 (witness): the network-failure conjunct evaluated in a
concrete environment whose request times out. -/
theorem forward_total_never_raises_witness :
    getApiKey envRequestFails = Except.ok (some "sk-test-key") ∧
    keyIsFalsy (some "sk-test-key") = false ∧
    envRequestFails.fileExists "doc.pdf" = true ∧
    envRequestFails.pdfPages "doc.pdf" = Except.ok ["hello world"] ∧
    stripIsEmpty (extract_text ["hello world"]) = false ∧
    envRequestFails.apiResponse (create_ai_prompt (extract_text ["hello world"]) "q")
      = ApiResponse.requestFailure "timeout" ∧
    forward envRequestFails "doc.pdf" "q"
      = "Error processing request: API request failed: timeout" :=
  ⟨rfl, rfl, rfl, rfl, by decide, rfl,
   forward_total_never_raises.2.2.2.1 envRequestFails "doc.pdf" "q"
     (some "sk-test-key") ["hello world"] "timeout" rfl rfl rfl rfl (by decide) rfl⟩

/-- Claim C5: the prompt built over a document is exactly the fixed
preamble, then the full extracted text — the per-page texts in page
order, each preceded by its page-delimiter marker — then the user
question trailer; its length is the exact sum, so no truncation occurs
at any document size. -/
theorem prompt_is_preamble_fulltext_question (pages : List String) (user_query : String) :
    create_ai_prompt (extract_text pages) user_query
        = preprompt ++ pagesJoined pages ++ userPromptSuffix user_query ∧
    (create_ai_prompt (extract_text pages) user_query).length
        = preprompt.length + (extract_text pages).length + (userPromptSuffix user_query).length := by
  constructor
  · rw [create_ai_prompt, extract_text_eq_pagesJoined, userPromptSuffix]
  · simp [create_ai_prompt, userPromptSuffix, String.length_append]

/-- Claim C6: extraction is deterministic — equal page sequences yield
equal output strings — and order-preserving: the output is the
marker-delimited concatenation of the page texts in page order. -/
theorem extraction_deterministic_and_ordered (pages pages2 : List String)
    (h : pages = pages2) :
    extract_text pages = extract_text pages2 ∧
    extract_text pages = pagesJoined pages := by
  subst h
  exact ⟨rfl, extract_text_eq_pagesJoined pages⟩

/-- Claim C6 (witness): the theorem evaluated on a concrete two-page
document. -/
theorem extraction_deterministic_and_ordered_witness :
    (["alpha", "beta"] : List String) = ["alpha", "beta"] ∧
    extract_text ["alpha", "beta"] = extract_text ["alpha", "beta"] ∧
    extract_text ["alpha", "beta"] = pagesJoined ["alpha", "beta"] :=
  ⟨rfl, (extraction_deterministic_and_ordered ["alpha", "beta"] ["alpha", "beta"] rfl).1,
   (extraction_deterministic_and_ordered ["alpha", "beta"] ["alpha", "beta"] rfl).2⟩

/-- Claim C7: from any chat-history state, the clear-history action
leaves exactly one message, whose role is `assistant` and whose content
is the fixed greeting text. -/
theorem clear_history_resets_to_single_greeting (h : List ChatMessage) :
    (clearHistory h).length = 1 ∧
    (clearHistory h).head? = some greetingMessage ∧
    greetingMessage.role = "assistant" ∧
    greetingMessage.content = "👋 Bienvenue ! Je suis là pour vous aider à analyser des PDF et générer des documents. Veuillez télécharger un fichier PDF ou poser une question." :=
  ⟨rfl, rfl, rfl, rfl⟩

/-- Claim C8 (counterexample): when `os.remove` raises on a file of the
scratch directory, the `except Exception: pass` at lines 252-253
swallows the failure and the file survives the first-run cleanup, so a
previously present file is not deleted. -/
theorem restart_cleanup_remove_failure_counterexample :
    (⟨"uploaded_report.pdf", true⟩ : DirEntry)
        ∈ main_first_run_cleanup false (fun e => e.name = "uploaded_report.pdf")
            [⟨"uploaded_report.pdf", true⟩, ⟨"cache", false⟩] ∧
    (⟨"uploaded_report.pdf", true⟩ : DirEntry).isFile = true := by
  exact ⟨by decide, rfl⟩

/-- Claim C8 (amended): on the first run of a session the cleanup runs,
and every file of the scratch directory whose removal does not raise is
deleted; an entry survives only if it is a directory or its removal
raised (and was swallowed); in particular when no removal fails, no
file survives the restart. -/
theorem restart_clears_scratch_files (removeFails : DirEntry → Bool)
    (entries : List DirEntry) :
    (∀ e, e ∈ entries → e.isFile = true → removeFails e = false →
        e ∉ main_first_run_cleanup false removeFails entries) ∧
    (∀ e, e ∈ main_first_run_cleanup false removeFails entries →
        e.isFile = false ∨ removeFails e = true) ∧
    ((∀ e, e ∈ entries → removeFails e = false) →
        ∀ e, e ∈ main_first_run_cleanup false removeFails entries → e.isFile = false) := by
  refine ⟨?_, ?_, ?_⟩
  · intro e he hf hr hmem
    simp [main_first_run_cleanup, cleanup_temp_dir, List.mem_filter, hf, hr] at hmem
  · intro e hmem
    simp [main_first_run_cleanup, cleanup_temp_dir, List.mem_filter] at hmem
    exact hmem.2
  · intro hall e hmem
    simp [main_first_run_cleanup, cleanup_temp_dir, List.mem_filter] at hmem
    rcases hmem.2 with hdir | hfail
    · exact hdir
    · exact absurd hfail (by simp [hall e hmem.1])

/-- Claim C8 (witness): a concrete scratch directory with one uploaded
file and one subdirectory, no removal failing; the file does not survive
the first-run cleanup. -/
theorem restart_clears_scratch_files_witness :
    (⟨"uploaded_report.pdf", true⟩ : DirEntry)
        ∈ ([⟨"uploaded_report.pdf", true⟩, ⟨"cache", false⟩] : List DirEntry) ∧
    (⟨"uploaded_report.pdf", true⟩ : DirEntry).isFile = true ∧
    (fun (_e : DirEntry) => false) (⟨"uploaded_report.pdf", true⟩ : DirEntry) = false ∧
    (⟨"uploaded_report.pdf", true⟩ : DirEntry)
        ∉ main_first_run_cleanup false (fun _e => false)
            [⟨"uploaded_report.pdf", true⟩, ⟨"cache", false⟩] :=
  ⟨by decide, rfl, rfl,
   (restart_clears_scratch_files (fun _e => false)
       [⟨"uploaded_report.pdf", true⟩, ⟨"cache", false⟩]).1
     ⟨"uploaded_report.pdf", true⟩ (by decide) rfl rfl⟩

/-- The upload loop keeps exactly the files declared `application/pdf`,
in order, recording for each the destination path and performing the
corresponding write. -/
theorem handleUploadsLoop_spec (temp_dir : String) (files : List UploadedFile) :
    handleUploadsLoop temp_dir files
      = ((files.filter (fun f => f.type = "application/pdf")).map
            (fun f => ({ path := uploadedFilePath temp_dir f.name,
                         name := f.name, size := f.size.getD 0 } : ProcessedFile)),
         (files.filter (fun f => f.type = "application/pdf")).map
            (fun f => (uploadedFilePath temp_dir f.name, f.data))) := by
  induction files with
  | nil => rfl
  | cons f rest ih =>
      by_cases hf : f.type = "application/pdf"
      · simp [handleUploadsLoop, hf, ih]
      · simp [handleUploadsLoop, hf, ih]

/-- Claim C9: `handle_multiple_pdf_uploads` returns metadata entries
exactly for the files whose declared type is `application/pdf`; each
entry records the path `<scratch-dir>/uploaded_<original-name>`, the
file bytes are written at that path, and files of any other type
produce no entry and no write. -/
theorem uploads_accept_only_pdfs (temp_dir : String) (files : List UploadedFile) :
    (handle_multiple_pdf_uploads temp_dir (some files)).1
        = (files.filter (fun f => f.type = "application/pdf")).map
            (fun f => ({ path := uploadedFilePath temp_dir f.name,
                         name := f.name, size := f.size.getD 0 } : ProcessedFile)) ∧
    (handle_multiple_pdf_uploads temp_dir (some files)).2
        = (files.filter (fun f => f.type = "application/pdf")).map
            (fun f => (uploadedFilePath temp_dir f.name, f.data)) := by
  simp [handle_multiple_pdf_uploads, handleUploadsLoop_spec]

/-- Any single append leaves the head of a history satisfying the
invariant untouched. -/
theorem historyInvariant_append (h : List ChatMessage) (m : ChatMessage)
    (hi : historyInvariant h) : historyInvariant (h ++ [m]) := by
  obtain ⟨hne, hhead⟩ := hi
  cases h with
  | nil => exact absurd rfl hne
  | cons a t => exact ⟨by simp, by simpa using hhead⟩

/-- Claim C10: initialization establishes, and every history operation —
appending a user message, an assistant response, or a generated-file
system message, and clearing — preserves, the invariant that the history
is non-empty with the assistant greeting as its first message. -/
theorem chat_history_invariant_preserved :
    historyInvariant initChatHistory ∧
    (∀ (h : List ChatMessage) (t : String) (p : List ProcessedFile),
        historyInvariant h → historyInvariant (appendUserMessage h t p)) ∧
    (∀ (h : List ChatMessage) (r : String),
        historyInvariant h → historyInvariant (appendAssistantResponse h r)) ∧
    (∀ (h : List ChatMessage) (f : String),
        historyInvariant h → historyInvariant (appendGeneratedFileMessage h f)) ∧
    (∀ h : List ChatMessage,
        historyInvariant h → historyInvariant (clearHistory h)) := by
  refine ⟨⟨by simp [initChatHistory], rfl⟩, ?_, ?_, ?_, ?_⟩
  · intro h t p hi
    exact historyInvariant_append h _ hi
  · intro h r hi
    exact historyInvariant_append h _ hi
  · intro h f hi
    exact historyInvariant_append h _ hi
  · intro h hi
    exact ⟨by simp [clearHistory], rfl⟩

/-- Claim C10 (witness): the invariant holds after initializing then
appending a concrete assistant response. -/
theorem chat_history_invariant_preserved_witness :
    historyInvariant initChatHistory ∧
    historyInvariant (appendAssistantResponse initChatHistory "Bonjour") :=
  ⟨chat_history_invariant_preserved.1,
   chat_history_invariant_preserved.2.2.1 initChatHistory "Bonjour"
     chat_history_invariant_preserved.1⟩
